import Mathlib

/-!
Verification of the dra-evolution resource model and its validation logic.

The data model is translated from `dra-evolution/pkg/api/claim_types.go`;
the validation functions are translated from
`dra-evolution/testdata/parse_test.go` (each validator returns the list of
error messages it reports, in report order; an empty list means the input
was accepted).  The CEL compiler used by `validateDeviceSelector` lives
outside the source tree and is abstracted as a function
`String → Option String` returning `none` on success and a compile-error
message otherwise.

Pieces of the resolver/allocator that are declared but not implemented in
the source tree (desired-count resolution, configuration collection,
effective-request computation, wire decoding) are modelled from the doc
comments of `claim_types.go` and from the specification, as noted on each
definition.
-/

namespace DraEvolution

/-- runtime.RawExtension (an arbitrary serialized payload) modelled as an
opaque string. -/
abbrev RawExtension := String

/-- ClassReference from claim_types.go: must have one and only one field
set; currently the only field is the optional resource class name. -/
structure ClassReference where
  resourceClassName : Option String
deriving DecidableEq

/-- MatchModel from claim_types.go: must have one and only one field set;
currently the only field is the optional attribute name (the Go field is
named `Attribute`, a keyword in Lean, hence `attributeName`). -/
structure MatchModel where
  attributeName : Option String
deriving DecidableEq

/-- Constraint from claim_types.go.  The Go field is named `Match`; that is
a keyword in Lean, so the field is called `matchCrit` here. -/
structure Constraint where
  matchCrit : Option MatchModel
deriving DecidableEq

/-- parse_test.go reads `requirement.MatchAttribute`: the attribute of the
match variant, flattened into an optional string (present exactly when the
match variant and its attribute are present). -/
def Constraint.matchAttribute (c : Constraint) : Option String :=
  c.matchCrit.bind MatchModel.attributeName

/-- DeviceFilter from claim_types.go: an optional driver-name restriction
plus a CEL selector expression (empty selector matches everything). -/
structure DeviceFilter where
  driverName : Option String
  selector : String
deriving DecidableEq

/-- ResourceRequirement is declared in claim_types.go as a future
extension; its definition is not part of the source tree, so it is
modelled as an opaque unit-like structure. -/
structure ResourceRequirement where
deriving DecidableEq

/-- Requirement from claim_types.go: must have one and only one field set
(device filter or consumable-resource requirement). -/
structure Requirement where
  device : Option DeviceFilter
  resource : Option ResourceRequirement
deriving DecidableEq

/-- parse_test.go reads `requirement.DeviceSelector`: the selector of the
device-filter variant, flattened into an optional string (present exactly
when the device variant is present). -/
def Requirement.deviceSelector (r : Requirement) : Option String :=
  r.device.map DeviceFilter.selector

/-- VendorConfigurationParameters from claim_types.go. -/
structure VendorConfigurationParameters where
  driverName : String
  parameters : RawExtension
deriving DecidableEq

/-- ConfigurationParameters from claim_types.go: must have one and only one
field set; currently the only field is the vendor configuration. -/
structure ConfigurationParameters where
  vendor : Option VendorConfigurationParameters
deriving DecidableEq

/-- IntRange from claim_types.go: optional minimum (default one when unset)
and optional maximum (default unlimited when unset). -/
structure IntRange where
  minimum : Option Int
  maximum : Option Int
deriving DecidableEq

/-- ResourceRequestDetail from claim_types.go.  The Go field `Match` is
called `matchCriteria` here (`match` is a Lean keyword); the embedded
`*ClassReference` becomes the optional field `classReference`. -/
structure ResourceRequestDetail where
  classReference : Option ClassReference
  config : List ConfigurationParameters
  adminAccess : Option Bool
  matchCriteria : List MatchModel
  count : Option IntRange
  requirements : List Requirement
deriving DecidableEq

/-- ResourceRequest from claim_types.go: an optional name, the embedded
optional inline detail, and the OneOf list of prioritized alternatives. -/
structure ResourceRequest where
  name : String
  resourceRequestDetail : Option ResourceRequestDetail
  oneOf : List ResourceRequestDetail
deriving DecidableEq

/-- ResourceClaimSpec from claim_types.go (embedded `*ClassReference`
becomes the optional field `classReference`). -/
structure ResourceClaimSpec where
  classReference : Option ClassReference
  config : List ConfigurationParameters
  constraints : List Constraint
  requests : List ResourceRequest
  shareable : Bool
deriving DecidableEq

/-- ResourceClassClaimOptions from claim_types.go. -/
structure ResourceClassClaimOptions where
  config : List ConfigurationParameters
  constraints : List Constraint
deriving DecidableEq

/-- ResourceClassRequestOptions from claim_types.go. -/
structure ResourceClassRequestOptions where
  config : List ConfigurationParameters
  requirements : List Requirement
deriving DecidableEq

/-- ResourceClass from claim_types.go (object metadata and the node
selector, which are external Kubernetes types, are omitted; they play no
role in the validated or resolved behavior modelled here). -/
structure ResourceClass where
  controllerName : String
  claim : ResourceClassClaimOptions
  request : ResourceClassRequestOptions
  defaultRequests : List ResourceRequest
deriving DecidableEq

/-- validateMatchAttribute from parse_test.go.  A nil attribute name fails
the `assert.NotNil` check, whose failure message carries the path; a name
without a dot is reported via `t.Errorf` with the quoted name (the format
string there does not mention the path). -/
def validateMatchAttribute (attributeName : Option String) (path : String) : List String :=
  match attributeName with
  | none => [path ++ ": expected value not to be nil"]
  | some name =>
    if name.data.contains ('.') then []
    else [("\"") ++ name ++ ("\": must be a non-empty DNS domain (including at least one dot)")]

/-- validateDeviceSelector from parse_test.go: a nil selector fails the
`assert.NotNil` check; otherwise the selector text is compiled and a
compile error is reported with the path. -/
def validateDeviceSelector (compile : String → Option String) (deviceSelector : Option String) (path : String) : List String :=
  match deviceSelector with
  | none => [path ++ ": expected value not to be nil"]
  | some sel =>
    match compile sel with
    | none => []
    | some err => [path ++ ".selector parse error: " ++ err]

/-- The indexed loop body of validateRequestRequirements from
parse_test.go: each requirement's device selector is validated at path
`path[i].deviceSelector`. -/
def validateRequirementList (compile : String → Option String) (path : String) : Nat → List Requirement → List String
  | _, [] => []
  | i, requirement :: rest =>
    validateDeviceSelector compile requirement.deviceSelector (path ++ "[" ++ toString i ++ "].deviceSelector")
      ++ validateRequirementList compile path (i + 1) rest

/-- validateRequestRequirements from parse_test.go. -/
def validateRequestRequirements (compile : String → Option String) (requirements : List Requirement) (path : String) : List String :=
  validateRequirementList compile path 0 requirements

/-- The indexed loop body of validateClaimConstraints from parse_test.go:
each constraint's match attribute is validated at path
`path[i].matchAttribute`. -/
def validateConstraintList (path : String) : Nat → List Constraint → List String
  | _, [] => []
  | i, constr :: rest =>
    validateMatchAttribute constr.matchAttribute (path ++ "[" ++ toString i ++ "].matchAttribute")
      ++ validateConstraintList path (i + 1) rest

/-- validateClaimConstraints from parse_test.go. -/
def validateClaimConstraints (constraints : List Constraint) (path : String) : List String :=
  validateConstraintList path 0 constraints

/-- validateRequest from parse_test.go: validates the requirements of one
inline request detail. -/
def validateRequest (compile : String → Option String) (request : ResourceRequestDetail) (path : String) : List String :=
  validateRequestRequirements compile request.requirements (path ++ ".requirements")

/-- The indexed loop body of validateRequests from parse_test.go.  The
mutual-exclusion check between the inline detail and OneOf, and the
validation of the OneOf entries, are commented out in the source; the
surviving code reports an error exactly when the inline detail is nil and
otherwise validates only the inline detail. -/
def validateRequestList (compile : String → Option String) (path : String) : Nat → List ResourceRequest → List String
  | _, [] => []
  | i, request :: rest =>
    (match request.resourceRequestDetail with
     | none => [path ++ "[" ++ toString i ++ "]: must request one device or oneOf"]
     | some detail => validateRequest compile detail (path ++ "[" ++ toString i ++ "]"))
      ++ validateRequestList compile path (i + 1) rest

/-- validateRequests from parse_test.go. -/
def validateRequests (compile : String → Option String) (requests : List ResourceRequest) (path : String) : List String :=
  validateRequestList compile path 0 requests

/-- validateResourceClaimSpec from parse_test.go. -/
def validateResourceClaimSpec (compile : String → Option String) (claimSpec : ResourceClaimSpec) (path : String) : List String :=
  validateClaimConstraints claimSpec.constraints (path ++ ".constraints")
    ++ validateRequests compile claimSpec.requests (path ++ ".requests")

/-- Desired-count resolution, translated from the doc comments of
`ResourceRequestDetail.Count` and `IntRange` in claim_types.go (the
resolver that consumes them is not part of the source tree): an unset
count means "exactly one instance must be available"; in a set range an
unset minimum defaults to one and an unset maximum to unlimited,
represented as `none` in the second component. -/
def resolveCount : Option IntRange → Int × Option Int
  | none => (1, some 1)
  | some r => (r.minimum.getD 1, r.maximum)

/-- DriverConfiguration from claim_types.go, with the single-field union
DriverConfigurationAlternatives inlined: the admin flag records whether
the source of the piece was a class, and the vendor payload is the raw
extension (the driver name is dropped and inferred from context). -/
structure DriverConfiguration where
  admin : Bool
  vendor : Option RawExtension
deriving DecidableEq

/-- One collected configuration entry: `admin` is true exactly when the
source was a class; the vendor payload of the ConfigurationParameters is
carried over (DriverConfigurationAlternatives has no driver name). -/
def configEntry (admin : Bool) (c : ConfigurationParameters) : DriverConfiguration :=
  ⟨admin, c.vendor.map VendorConfigurationParameters.parameters⟩

/-- Claim-level configuration collection, translated from the doc comment
of `StructuredDriverData.Config` in claim_types.go (the allocator that
fills it is not part of the source tree): entries sorted from most specific
first to least specific last — claim, then claim class reference — with
`admin` true exactly on the class-sourced entries. -/
def collectClaimConfig (claimConfig classClaimConfig : List ConfigurationParameters) : List DriverConfiguration :=
  claimConfig.map (configEntry false) ++ classClaimConfig.map (configEntry true)

/-- Per-request configuration collection, translated from the doc comment
of `RequestAllocationResult.Config` in claim_types.go (the allocator that
fills it is not part of the source tree): entries sorted from most specific
first to least specific last — claim request, then claim request class
reference — with `admin` true exactly on the class-sourced entries. -/
def collectRequestConfig (requestConfig classRequestConfig : List ConfigurationParameters) : List DriverConfiguration :=
  requestConfig.map (configEntry false) ++ classRequestConfig.map (configEntry true)

/-- The per-request merged configuration list as the specification words
it (a refinement target, written from the spec text to be compared with
the collect functions above): the entries of all four sources concatenated
in specificity order, most specific first — claim, claim class, request,
request class — class-sourced entries tagged admin. -/
def specFourSourceConfig (claimConfig classClaimConfig requestConfig classRequestConfig : List ConfigurationParameters) : List DriverConfiguration :=
  claimConfig.map (configEntry false) ++ classClaimConfig.map (configEntry true)
    ++ requestConfig.map (configEntry false) ++ classRequestConfig.map (configEntry true)

/-- The single, empty default request (Go zero value of ResourceRequest)
used when neither the claim nor its class supplies requests. -/
def emptyResourceRequest : ResourceRequest :=
  ⟨"", none, []⟩

/-- The resource class referenced by a claim spec, resolved through a
lookup table from class names to classes. -/
def referencedClass (lookup : String → Option ResourceClass) (spec : ResourceClaimSpec) : Option ResourceClass :=
  (spec.classReference.bind ClassReference.resourceClassName).bind lookup

/-- Modelled from the spec: the claim resolver is not part of the source
tree; its effective-request computation is modelled from the spec and the
matching doc comments of `ResourceClass.DefaultRequests` and
`ClassReference` in claim_types.go.  A claim's effective request list is
its own requests if non-empty, else the non-empty default requests of its
referenced class, else a single, empty request. -/
def effectiveRequests (lookup : String → Option ResourceClass) (spec : ResourceClaimSpec) : List ResourceRequest :=
  if spec.requests.isEmpty then
    match referencedClass lookup spec with
    | some cls =>
      if cls.defaultRequests.isEmpty then [emptyResourceRequest]
      else cls.defaultRequests
    | none => [emptyResourceRequest]
  else spec.requests

/-- A wire document as far as decoding is concerned: a group/kind
discriminator plus an opaque body. -/
structure WireDocument where
  group : String
  kind : String
  body : String
deriving DecidableEq

/-- The typed entities that testDecode in parse_test.go dispatches on: a
device class carries the requirements it validates, a claim and a claim
template carry a claim spec; any other registered type is left
unvalidated (the default branch of the switch only logs). -/
inductive DecodedObject where
  | deviceClass (requirements : List Requirement)
  | resourceClaim (spec : ResourceClaimSpec)
  | resourceClaimTemplate (spec : ResourceClaimSpec)
  | other (group kind : String)

/-- Result of decoding one wire document: a typed object, or the
not-registered error that `runtime.IsNotRegisteredError` recognizes. -/
inductive DecodeResult where
  | decoded (obj : DecodedObject)
  | notRegistered (group kind : String)

/-- Outcome of testDecode for one document: skipped, or finished with the
reported validation errors. -/
inductive TestOutcome where
  | skipped (msg : String)
  | finished (errors : List String)

/-- Modelled from the spec: the decoder (the serializer implementation is
external to the source tree) turns a wire document into one of the typed
entities via a registry keyed by group and kind; a document whose group
and kind are not registered yields the not-registered error. -/
def decode (registry : String → String → Option (String → DecodedObject)) (doc : WireDocument) : DecodeResult :=
  match registry doc.group doc.kind with
  | none => DecodeResult.notRegistered doc.group doc.kind
  | some construct => DecodeResult.decoded (construct doc.body)

/-- The type switch of testDecode from parse_test.go: a device class has
its requirements validated, a claim its spec, a template its inner spec;
other registered objects are only logged. -/
def validateDecodedObject (compile : String → Option String) : DecodedObject → List String
  | DecodedObject.deviceClass requirements =>
    validateRequestRequirements compile requirements ("class.requirements")
  | DecodedObject.resourceClaim spec =>
    validateResourceClaimSpec compile spec ("claim.spec")
  | DecodedObject.resourceClaimTemplate spec =>
    validateResourceClaimSpec compile spec ("claimTemplate.spec.spec")
  | DecodedObject.other _ _ => []

/-- testDecode from parse_test.go: a not-registered decode error makes the
test skip the document (`t.Skipf`), anything that decodes is validated
according to its type. -/
def testDecode (compile : String → Option String) : DecodeResult → TestOutcome
  | DecodeResult.notRegistered group kind =>
    TestOutcome.skipped ("YAML file has not been updated yet: no kind " ++ kind ++ " is registered for group " ++ group)
  | DecodeResult.decoded obj =>
    TestOutcome.finished (validateDecodedObject compile obj)

/-- Test double: a compiler that accepts every selector expression. -/
def acceptAll : String → Option String := fun _ => none

/-- Test double: a compiler that rejects every selector expression. -/
def rejectAll : String → Option String := fun s => some (s ++ " does not compile")

/-- An inline request detail with no class reference, no configuration,
no match criteria, no count and no requirements. -/
def plainDetail : ResourceRequestDetail := ⟨none, [], none, [], none, []⟩

/-- A vendor configuration fixture. -/
def vendorCfg : ConfigurationParameters := ⟨some ⟨"gpu.example.com", "vendorPayload"⟩⟩

/-- A class fixture with one default request. -/
def classA : ResourceClass := ⟨"", ⟨[], []⟩, ⟨[], []⟩, [⟨"req0", some plainDetail, []⟩]⟩

/-- A lookup table holding only classA. -/
def lookupA : String → Option ResourceClass := fun n => if n == "classA" then some classA else none

/-- A claim spec with its own request. -/
def specOwn : ResourceClaimSpec := ⟨none, [], [], [⟨"r1", some plainDetail, []⟩], false⟩

/-- A claim spec with no requests that references classA. -/
def specRef : ResourceClaimSpec := ⟨some ⟨some ("classA")⟩, [], [], [], false⟩

/-- A claim spec with no requests and no class reference. -/
def specBare : ResourceClaimSpec := ⟨none, [], [], [], false⟩

/-- A registry fixture that knows only the ResourceClaim kind of the
resource.k8s.io group. -/
def registryB : String → String → Option (String → DecodedObject) :=
  fun group kind =>
    if group == "resource.k8s.io" && kind == "ResourceClaim" then
      some (fun _ => DecodedObject.resourceClaim specBare)
    else none

theorem validateDeviceSelector_eq_nil (compile : String → Option String) (deviceSelector : Option String) (path : String) :
    validateDeviceSelector compile deviceSelector path = [] ↔
      ∃ s, deviceSelector = some s ∧ compile s = none := by
  cases deviceSelector with
  | none => simp [validateDeviceSelector]
  | some s =>
    cases h : compile s with
    | none => simp [validateDeviceSelector, h]
    | some e => simp [validateDeviceSelector, h]

theorem validateRequirementList_eq_nil (compile : String → Option String) (path : String) (i : Nat) (requirements : List Requirement) :
    validateRequirementList compile path i requirements = [] ↔
      ∀ r ∈ requirements, ∃ s, r.deviceSelector = some s ∧ compile s = none := by
  induction requirements generalizing i with
  | nil => simp [validateRequirementList]
  | cons r rest ih =>
    simp [validateRequirementList, validateDeviceSelector_eq_nil, ih]

theorem validateMatchAttribute_eq_nil (attributeName : Option String) (path : String) :
    validateMatchAttribute attributeName path = [] ↔
      ∃ name, attributeName = some name ∧ name.data.contains ('.') = true := by
  cases attributeName with
  | none => simp [validateMatchAttribute]
  | some name =>
    by_cases h : name.data.contains ('.')
    · simp [validateMatchAttribute, h]
    · simp [validateMatchAttribute, h]

theorem validateRequestList_eq_nil (compile : String → Option String) (path : String) (i : Nat) (requests : List ResourceRequest) :
    validateRequestList compile path i requests = [] ↔
      ∀ r ∈ requests, ∃ d, r.resourceRequestDetail = some d ∧
        ∀ q ∈ d.requirements, ∃ s, q.deviceSelector = some s ∧ compile s = none := by
  induction requests generalizing i with
  | nil => simp [validateRequestList]
  | cons r rest ih =>
    cases h : r.resourceRequestDetail with
    | none => simp [validateRequestList, h]
    | some d =>
      simp [validateRequestList, h, validateRequest, validateRequestRequirements,
        validateRequirementList_eq_nil, ih]

theorem validateRequestList_oneOf_irrelevant (compile : String → Option String) (path : String) (requests : List ResourceRequest) :
    ∀ i, validateRequestList compile path i
        (requests.map (fun r => ⟨r.name, r.resourceRequestDetail, []⟩))
      = validateRequestList compile path i requests := by
  induction requests with
  | nil => intro i; rfl
  | cons r rest ih =>
    intro i
    simp only [List.map_cons, validateRequestList, ih]

/-- C1 counterexample: a request that carries a non-empty OneOf list but
no inline RequestDetail is reported as a validation error, although the
claim says such a request must be accepted (error exactly when the request
has neither). -/
theorem oneOf_only_request_rejected :
    validateRequests acceptAll [⟨"", none, [plainDetail]⟩] ("claim.spec.requests") ≠ [] := by
  decide

/-- C1 (amended): validation accepts a request list exactly when every
request carries an inline RequestDetail whose requirements all hold a
selector that compiles; a request without an inline detail is a validation
error even when its OneOf list is non-empty (acceptance is independent of
the OneOf field). -/
theorem validateRequests_accepts_iff_inline_detail (compile : String → Option String) (requests : List ResourceRequest) (path : String) :
    validateRequests compile requests path = [] ↔
      ∀ r ∈ requests, ∃ d, r.resourceRequestDetail = some d ∧
        ∀ q ∈ d.requirements, ∃ s, q.deviceSelector = some s ∧ compile s = none := by
  exact validateRequestList_eq_nil compile path 0 requests

/-- C1 amended witness: a concrete request with an inline detail and a
non-empty OneOf list is accepted. -/
theorem validateRequests_accepts_iff_inline_detail_witness :
    validateRequests acceptAll [⟨"", some plainDetail, [plainDetail]⟩] ("claim.spec.requests") = [] := by
  refine (validateRequests_accepts_iff_inline_detail acceptAll _ _).mpr ?_
  intro r hr
  simp only [List.mem_singleton] at hr
  subst hr
  exact ⟨plainDetail, rfl, by simp [plainDetail]⟩

set_option maxRecDepth 8192 in
/-- C2 counterexample: the rejection of the non-qualified name numa is
reported with a message built from the quoted name only; the path string
does not occur in that message, so the error is not path-qualified. -/
theorem numa_error_lacks_path :
    validateMatchAttribute (some ("numa")) ("claim.spec.constraints[0].matchAttribute")
        = [("\"numa\": must be a non-empty DNS domain (including at least one dot)")]
      ∧ ¬ ((("claim.spec.constraints[0].matchAttribute").data)
          <:+: (("\"numa\": must be a non-empty DNS domain (including at least one dot)").data)) := by
  constructor
  · decide
  · decide

/-- C2 (amended): a match constraint's attribute name is accepted exactly
when it is present and contains at least one domain separator; the name
numa.dra.example.com is accepted; the name numa is rejected with an error
quoting the offending name (not the path); a missing (nil) attribute name
is a validation error reported with the field path. -/
theorem validateMatchAttribute_domain_check (attributeName : Option String) (path : String) :
    (validateMatchAttribute attributeName path = [] ↔
       ∃ name, attributeName = some name ∧ name.data.contains ('.') = true)
      ∧ validateMatchAttribute (some ("numa.dra.example.com")) path = []
      ∧ validateMatchAttribute (some ("numa")) path
          = [("\"numa\": must be a non-empty DNS domain (including at least one dot)")]
      ∧ validateMatchAttribute none path = [path ++ ": expected value not to be nil"] := by
  have h1 : ("numa.dra.example.com").data.contains ('.') = true := by decide
  have h2 : ("numa").data.contains ('.') = false := by decide
  exact ⟨validateMatchAttribute_eq_nil attributeName path,
    by simp [validateMatchAttribute, h1], by simp [validateMatchAttribute, h2], rfl⟩

/-- C3 (confirmed): every present device selector is compiled; a compile
failure is reported as a path-carrying validation error, and a selector
that compiles produces no error; a requirement list (as validated both for
a device class and for the requests of a claim) is accepted exactly when
every requirement holds a selector that compiles. -/
theorem selector_compilation_validated (compile : String → Option String) (requirements : List Requirement) (path sel : String) :
    (validateDeviceSelector compile (some sel) path = [] ↔ compile sel = none)
      ∧ (∀ err, compile sel = some err →
           validateDeviceSelector compile (some sel) path
             = [path ++ ".selector parse error: " ++ err])
      ∧ (validateRequestRequirements compile requirements path = [] ↔
           ∀ r ∈ requirements, ∃ s, r.deviceSelector = some s ∧ compile s = none) := by
  refine ⟨?_, ?_, validateRequirementList_eq_nil compile path 0 requirements⟩
  · cases h : compile sel with
    | none => simp [validateDeviceSelector, h]
    | some e => simp [validateDeviceSelector, h]
  · intro err h
    simp [validateDeviceSelector, h]

/-- C3 witness: a selector rejected by the compiler is reported at its
path, and a requirement list whose selectors all compile is accepted. -/
theorem selector_compilation_validated_witness :
    validateDeviceSelector rejectAll (some ("device.x")) ("class.requirements[0].deviceSelector")
        = [("class.requirements[0].deviceSelector") ++ ".selector parse error: " ++ ("device.x does not compile")]
      ∧ validateRequestRequirements acceptAll [⟨some ⟨none, "true"⟩, none⟩] ("class.requirements") = [] := by
  constructor
  · exact (selector_compilation_validated rejectAll [] ("class.requirements[0].deviceSelector") ("device.x")).2.1
      ("device.x does not compile") rfl
  · refine (selector_compilation_validated acceptAll [⟨some ⟨none, "true"⟩, none⟩] ("class.requirements") ("")).2.2.mpr ?_
    intro r hr
    simp only [List.mem_singleton] at hr
    subst hr
    exact ⟨"true", rfl, rfl⟩

/-- C4 counterexample: a request carrying both an inline detail and a
non-empty OneOf list (more than one populated variant) passes validation
with no error, although the claim says it must be rejected; and a request
whose only populated variant is the OneOf list (exactly one populated
variant) is rejected, although the claim says it must be accepted. -/
theorem detail_and_oneOf_accepted :
    validateRequests acceptAll [⟨"", some plainDetail, [plainDetail]⟩] ("claim.spec.requests") = []
      ∧ validateRequests acceptAll [⟨"gpu", none, [plainDetail]⟩] ("claim.spec.requests") ≠ [] := by
  constructor
  · decide
  · decide

/-- C4 (amended): the only union-cardinality checks performed by
validation are zero-populated checks: a request whose inline detail is
absent is rejected (even when OneOf alternatives are populated), a match
constraint with a nil attribute is rejected, and a requirement with a nil
selector is rejected; a request carrying both an inline detail and OneOf
alternatives is validated exactly like the same request without the OneOf
list, so more than one populated variant is accepted whenever the inline
detail itself validates. -/
theorem union_cardinality_enforcement (compile : String → Option String) (name path : String) (d : ResourceRequestDetail) (alts : List ResourceRequestDetail) :
    validateRequests compile [⟨name, some d, alts⟩] path
        = validateRequests compile [⟨name, some d, []⟩] path
      ∧ validateRequests compile [⟨name, none, alts⟩] path ≠ []
      ∧ validateMatchAttribute none path ≠ []
      ∧ validateDeviceSelector compile none path ≠ [] := by
  refine ⟨rfl, ?_, ?_, ?_⟩
  · simp [validateRequests, validateRequestList]
  · simp [validateMatchAttribute]
  · simp [validateDeviceSelector]

/-- C5 counterexample: when the desired-count field is unset the resolved
range is one to one (exactly one instance), not one to unbounded: its
maximum is some 1, refuting the claimed unbounded maximum. -/
theorem unset_count_not_unbounded :
    resolveCount none = (1, some 1) ∧ (resolveCount none).2 ≠ none := by
  exact ⟨rfl, by simp [resolveCount]⟩

/-- C5 (amended): a request whose desired-count field is unset requires
exactly one instance (minimum 1, maximum 1); when a range is set, an unset
minimum resolves to 1 and an unset maximum to unlimited, and in general a
set range resolves to its minimum (default 1) and its maximum. -/
theorem resolveCount_defaults :
    resolveCount none = (1, some 1)
      ∧ (∀ r : IntRange, r.minimum = none → (resolveCount (some r)).1 = 1)
      ∧ (∀ r : IntRange, r.maximum = none → (resolveCount (some r)).2 = none)
      ∧ (∀ r : IntRange, resolveCount (some r) = (r.minimum.getD 1, r.maximum)) := by
  refine ⟨rfl, ?_, ?_, fun r => rfl⟩
  · intro r h; simp [resolveCount, h]
  · intro r h; simp [resolveCount, h]

/-- C5 amended witness: concrete ranges with an unset minimum and an unset
maximum resolve to minimum 1 and unlimited maximum respectively. -/
theorem resolveCount_defaults_witness :
    (resolveCount (some ⟨none, some 4⟩)).1 = 1
      ∧ (resolveCount (some ⟨some 2, none⟩)).2 = none :=
  ⟨resolveCount_defaults.2.1 ⟨none, some 4⟩ rfl,
   resolveCount_defaults.2.2.1 ⟨some 2, none⟩ rfl⟩

/-- C6 counterexample: with one claim-level configuration entry and no
other sources, the per-request configuration list produced by the code is
empty while the four-source merged list the claim describes contains the
claim-level entry, so the per-request list does not contain the entries of
all four sources. -/
theorem request_config_omits_claim_entry :
    collectRequestConfig [] [] = []
      ∧ specFourSourceConfig [vendorCfg] [] [] [] = [⟨false, some ("vendorPayload")⟩]
      ∧ collectRequestConfig [] [] ≠ specFourSourceConfig [vendorCfg] [] [] [] := by
  refine ⟨rfl, rfl, ?_⟩
  decide

/-- C6 (amended): configuration entries are collected into two lists, each
ordered most specific first: the claim-level list holds the claim config
followed by the claim-class config, and the per-request list holds the
request config followed by the request-class config; in both lists every
class-sourced entry carries Admin true and every claim- or request-sourced
entry carries Admin false, and the payloads appear in source order. -/
theorem config_collection_order_and_tags (claimConfig classClaimConfig requestConfig classRequestConfig : List ConfigurationParameters) :
    (collectClaimConfig claimConfig classClaimConfig).map DriverConfiguration.admin
        = claimConfig.map (fun _ => false) ++ classClaimConfig.map (fun _ => true)
      ∧ (collectClaimConfig claimConfig classClaimConfig).map DriverConfiguration.vendor
        = (claimConfig ++ classClaimConfig).map (fun c => c.vendor.map VendorConfigurationParameters.parameters)
      ∧ (collectRequestConfig requestConfig classRequestConfig).map DriverConfiguration.admin
        = requestConfig.map (fun _ => false) ++ classRequestConfig.map (fun _ => true)
      ∧ (collectRequestConfig requestConfig classRequestConfig).map DriverConfiguration.vendor
        = (requestConfig ++ classRequestConfig).map (fun c => c.vendor.map VendorConfigurationParameters.parameters) := by
  refine ⟨?_, ?_, ?_, ?_⟩ <;>
    simp [collectClaimConfig, collectRequestConfig, configEntry, List.map_map, Function.comp_def]

/-- C7 (confirmed): the effective request list is the claim's own requests
when non-empty; otherwise the non-empty default requests of the claim's
referenced class; otherwise a single empty default request, which carries
no inline detail (hence no constraints or requirements) and whose unset
count resolves to exactly one instance. -/
theorem effectiveRequests_resolution (lookup : String → Option ResourceClass) (spec : ResourceClaimSpec) :
    (spec.requests ≠ [] → effectiveRequests lookup spec = spec.requests)
      ∧ (∀ cls, spec.requests = [] → referencedClass lookup spec = some cls →
           cls.defaultRequests ≠ [] → effectiveRequests lookup spec = cls.defaultRequests)
      ∧ (spec.requests = [] →
           (∀ cls, referencedClass lookup spec = some cls → cls.defaultRequests = []) →
           effectiveRequests lookup spec = [emptyResourceRequest])
      ∧ emptyResourceRequest.resourceRequestDetail = none
      ∧ emptyResourceRequest.oneOf = []
      ∧ resolveCount (emptyResourceRequest.resourceRequestDetail.bind ResourceRequestDetail.count)
          = (1, some 1) := by
  refine ⟨?_, ?_, ?_, rfl, rfl, rfl⟩
  · intro h
    simp [effectiveRequests, List.isEmpty_iff, h]
  · intro cls hreq hcls hdef
    simp [effectiveRequests, List.isEmpty_iff, hreq, hcls, hdef]
  · intro hreq hcls
    cases h : referencedClass lookup spec with
    | none => simp [effectiveRequests, List.isEmpty_iff, hreq, h]
    | some cls => simp [effectiveRequests, List.isEmpty_iff, hreq, h, hcls cls h]

/-- C7 witness: a claim with its own request keeps it; a claim that only
references classA gets that class's default requests; a bare claim gets
the single empty default request. -/
theorem effectiveRequests_resolution_witness :
    effectiveRequests lookupA specOwn = specOwn.requests
      ∧ effectiveRequests lookupA specRef = classA.defaultRequests
      ∧ effectiveRequests lookupA specBare = [emptyResourceRequest] := by
  refine ⟨(effectiveRequests_resolution lookupA specOwn).1 (by simp [specOwn]),
    (effectiveRequests_resolution lookupA specRef).2.1 classA rfl ?_ (by simp [classA]),
    (effectiveRequests_resolution lookupA specBare).2.2.1 rfl ?_⟩
  · decide
  · intro cls h
    simp [referencedClass, specBare] at h

/-- C8 (confirmed): a wire document whose group and kind are not in the
registry is skipped by testDecode rather than reported as an error, while
a document of a registered kind decodes into the typed entity produced by
the registered constructor and is then validated. -/
theorem decode_registry_dispatch (registry : String → String → Option (String → DecodedObject)) (compile : String → Option String) (doc : WireDocument) :
    (registry doc.group doc.kind = none →
       ∃ msg, testDecode compile (decode registry doc) = TestOutcome.skipped msg)
      ∧ (∀ construct, registry doc.group doc.kind = some construct →
           decode registry doc = DecodeResult.decoded (construct doc.body)
             ∧ testDecode compile (decode registry doc)
                 = TestOutcome.finished (validateDecodedObject compile (construct doc.body))) := by
  constructor
  · intro h
    refine ⟨("YAML file has not been updated yet: no kind " ++ doc.kind
      ++ " is registered for group " ++ doc.group), ?_⟩
    simp [decode, h, testDecode]
  · intro construct h
    simp [decode, h, testDecode]

/-- C8 witness: an unregistered kind is skipped, a registered kind decodes
into the corresponding typed claim. -/
theorem decode_registry_dispatch_witness :
    (∃ msg, testDecode acceptAll (decode registryB ⟨"apps", "Deployment", "doc"⟩)
        = TestOutcome.skipped msg)
      ∧ decode registryB ⟨"resource.k8s.io", "ResourceClaim", "doc"⟩
          = DecodeResult.decoded (DecodedObject.resourceClaim specBare) := by
  constructor
  · exact (decode_registry_dispatch registryB acceptAll ⟨"apps", "Deployment", "doc"⟩).1 rfl
  · exact ((decode_registry_dispatch registryB acceptAll
      ⟨"resource.k8s.io", "ResourceClaim", "doc"⟩).2 (fun _ => DecodedObject.resourceClaim specBare) rfl).1

/-- C9 (confirmed): validation never inspects the OneOf alternatives:
erasing every request's OneOf list leaves the reported errors unchanged,
so requirements and selectors nested in OneOf entries are never compiled
or checked and only the inline detail, when present, is validated. -/
theorem validateRequests_ignores_oneOf (compile : String → Option String) (requests : List ResourceRequest) (path : String) :
    validateRequests compile (requests.map (fun r => ⟨r.name, r.resourceRequestDetail, []⟩)) path
      = validateRequests compile requests path := by
  exact validateRequestList_oneOf_irrelevant compile path requests 0

/-- C10 (confirmed): the match-attribute check accepts every present name
containing a dot anywhere — including a lone dot, consecutive dots and a
trailing dot — and rejects exactly a missing name or a name with no
dot. -/
theorem matchAttribute_any_dot_accepted (name path : String) :
    (validateMatchAttribute (some name) path = [] ↔ name.data.contains ('.') = true)
      ∧ validateMatchAttribute (some (".")) path = []
      ∧ validateMatchAttribute (some ("a..")) path = []
      ∧ validateMatchAttribute (some ("a.")) path = []
      ∧ validateMatchAttribute none path ≠ []
      ∧ validateMatchAttribute (some ("numa")) path ≠ [] := by
  have hd : ∀ s : String, s.data.contains ('.') = true → validateMatchAttribute (some s) path = [] := by
    intro s hs
    have hm : ('.') ∈ s.data := by simpa using hs
    simp [validateMatchAttribute, hm]
  refine ⟨?_, hd (".") (by decide), hd ("a..") (by decide), hd ("a.") (by decide),
    by simp [validateMatchAttribute], ?_⟩
  · by_cases h : name.data.contains ('.')
    · simp [validateMatchAttribute, h]
    · simp [validateMatchAttribute, h]
  · have h2 : ("numa").data.contains ('.') = false := by decide
    simp [validateMatchAttribute, h2]

end DraEvolution
